import Mathlib

/-!
Verification development for the scimgateway MSSQL plugin
(src/lib/plugin-mssql.js).  The plugin's handlers are shallowly embedded:
JavaScript strings are modelled as lists of characters (`JStr`), possibly
`undefined`/`null` values as `Option`, thrown errors as `Except.error`,
and the asynchronous connection lifecycle as explicit outcome parameters
together with a trace recording whether the connection was opened and
closed.  Each definition mirrors the corresponding lines of the source.
-/

/-- A JavaScript string, modelled as its list of characters. -/
abbrev JStr := List Char

/-- JavaScript truthiness of a possibly-undefined string value:
`undefined`/`null` and the empty string are falsy. -/
def truthy : Option JStr → Bool
  | none => false
  | some s => !s.isEmpty

/-- Template-literal interpolation of a possibly-undefined string value:
an undefined value prints as the literal text undefined. -/
def interp : Option JStr → JStr
  | none => "undefined".data
  | some s => s

/-- Template-literal interpolation of a value that is either a string or
the JavaScript null, which prints as the literal text null. -/
def interpNull : Option JStr → JStr
  | none => "null".data
  | some s => s

/-- JavaScript String.prototype.split with a one-character separator
(used by getCtxAuth with a blank and with a colon). -/
def splitOnChar (sep : Char) : JStr → List JStr
  | [] => [[]]
  | c :: cs =>
    match splitOnChar sep cs with
    | [] => [[]]
    | h :: t => if c = sep then [] :: h :: t else (c :: h) :: t

/-- JavaScript `x ? x : undefined` applied to a possibly-undefined string:
keeps the value exactly when it is truthy. -/
def truthyOr (o : Option JStr) : Option JStr :=
  if truthy o then o else none

/-- Whether an Except value is a success. -/
def exceptOk {ε α : Type} : Except ε α → Bool
  | .ok _ => true
  | .error _ => false

/-- The getObj filter descriptor passed by the gateway to getUsers and
getGroups: attribute, operator, value and rawFilter, each possibly
undefined (startIndex and count are not read by the plugin). -/
structure GetObj where
  attrib : Option JStr := none
  operator : Option JStr := none
  value : Option JStr := none
  rawFilter : Option JStr := none

/-- The mandatory if-else ladder of getUsers (plugin-mssql.js lines
82-102): builds the SQL query string or throws the corresponding
filtering error. -/
def getUsersBuildSql (g : GetObj) : Except JStr JStr :=
  if truthy g.operator then
    if g.operator = some "eq".data ∧
        (g.attrib = some "id".data ∨ g.attrib = some "userName".data ∨
          g.attrib = some "externalId".data) then
      .ok ("select * from [User] where UserID = '".data ++ interp g.value ++ "'".data)
    else if g.operator = some "eq".data ∧ g.attrib = some "group.value".data then
      .error ("getUsers error: not supporting groups member of user filtering: ".data
        ++ interp g.rawFilter)
    else
      .error ("getUsers error: not supporting simpel filtering: ".data ++ interp g.rawFilter)
  else if truthy g.rawFilter then
    .error ("getUsers not error: supporting advanced filtering: ".data ++ interp g.rawFilter)
  else
    .ok "select * from [User]".data

/-- A row of the User table as delivered by the tedious driver: each
column carries a value that may be the SQL NULL (lines 134-149 read the
value field of each column). -/
structure SqlRow where
  UserID : Option JStr := none
  Enabled : Option JStr := none
  Password : Option JStr := none
  FirstName : Option JStr := none
  MiddleName : Option JStr := none
  LastName : Option JStr := none
  Email : Option JStr := none
  MobilePhone : Option JStr := none
deriving DecidableEq

/-- The name sub-object of a SCIM user. -/
structure ScimName where
  givenName : Option JStr := none
  middleName : Option JStr := none
  familyName : Option JStr := none
deriving DecidableEq

/-- One entry of a SCIM multi-valued attribute (emails, phoneNumbers). -/
structure ScimEntry where
  type : JStr
  value : JStr
deriving DecidableEq

/-- The SCIM user object built for each result row by getUsers. -/
structure ScimUser where
  id : Option JStr
  userName : Option JStr
  externalId : Option JStr
  active : Bool
  name : ScimName
  phoneNumbers : Option (List ScimEntry)
  emails : Option (List ScimEntry)
deriving DecidableEq

/-- The row-to-SCIM mapping of getUsers (lines 134-147). -/
def rowToScim (r : SqlRow) : ScimUser :=
  { id := truthyOr r.UserID
    userName := truthyOr r.UserID
    externalId := truthyOr r.UserID
    active := r.Enabled = some "true".data
    name :=
      { givenName := truthyOr r.FirstName
        middleName := truthyOr r.MiddleName
        familyName := truthyOr r.LastName }
    phoneNumbers := (truthyOr r.MobilePhone).map (fun v => [⟨"other".data, v⟩])
    emails := (truthyOr r.Email).map (fun v => [⟨"other".data, v⟩]) }

/-- The name sub-object of an inbound SCIM user/patch object. -/
structure NameObj where
  givenName : Option JStr := none
  middleName : Option JStr := none
  familyName : Option JStr := none
deriving DecidableEq

/-- The `other` sub-object of the inbound emails and phoneNumbers
containers. -/
structure OtherObj where
  value : Option JStr := none
deriving DecidableEq

/-- An inbound SCIM user object (createUser) or patch object
(modifyUser).  The `active` field carries the template-literal
interpolation of the JavaScript value (a boolean true interpolates to the
text true); the `emails` and `phoneNumbers` fields carry the `other`
sub-object read by the plugin. -/
structure UserObj where
  externalId : Option JStr := none
  active : Option JStr := none
  password : Option JStr := none
  name : Option NameObj := none
  emails : Option OtherObj := none
  phoneNumbers : Option OtherObj := none
deriving DecidableEq

/-- An SQL string literal: the value between single quotes. -/
def quote (s : JStr) : JStr := "'".data ++ s ++ "'".data

/-- The insert object of createUser (lines 175-184): each field is either
a quoted SQL literal or the JavaScript null. -/
structure InsertRec where
  UserID : Option JStr
  Enabled : Option JStr
  Password : Option JStr
  FirstName : Option JStr
  MiddleName : Option JStr
  LastName : Option JStr
  MobilePhone : Option JStr
  Email : Option JStr
deriving DecidableEq

/-- createUser's insert object (lines 171-184): the missing name, emails
and phoneNumbers containers are first defaulted to empty structures, then
each column value is the quoted literal when the source field is truthy
and null otherwise; UserID interpolates externalId unconditionally and
Enabled falls back to the quoted text false. -/
def createUserInsertRec (u : UserObj) : InsertRec :=
  let name := u.name.getD {}
  let emails := u.emails.getD {}
  let phoneNumbers := u.phoneNumbers.getD {}
  { UserID := some (quote (interp u.externalId))
    Enabled := some (if truthy u.active then quote (interp u.active) else "'false'".data)
    Password := (truthyOr u.password).map quote
    FirstName := (truthyOr name.givenName).map quote
    MiddleName := (truthyOr name.middleName).map quote
    LastName := (truthyOr name.familyName).map quote
    MobilePhone := (truthyOr phoneNumbers.value).map quote
    Email := (truthyOr emails.value).map quote }

/-- createUser's sqlQuery template literal (lines 202-203): the fixed
8-column insert statement over the insert object. -/
def createUserSql (u : UserObj) : JStr :=
  let insert := createUserInsertRec u
  "insert into [User] (UserID, Enabled, Password, FirstName, MiddleName, LastName, Email, MobilePhone)\n                values (".data
    ++ interpNull insert.UserID ++ ", ".data
    ++ interpNull insert.Enabled ++ ", ".data
    ++ interpNull insert.Password ++ ", ".data
    ++ interpNull insert.FirstName ++ ", ".data
    ++ interpNull insert.MiddleName ++ ", ".data
    ++ interpNull insert.LastName ++ ", ".data
    ++ interpNull insert.Email ++ ", ".data
    ++ interpNull insert.MobilePhone ++ ")".data

/-- deleteUser's sqlQuery (line 248). -/
def deleteUserSql (id : JStr) : JStr :=
  "delete from [User] where UserID = '".data ++ id ++ "'".data

/-- modifyUser's accumulated SET clause before the trailing comma is
removed (lines 280-306): the sequential sql += chain appends, in source
order, one assignment fragment per attribute present in the patch object
(the missing name, emails and phoneNumbers containers having first been
defaulted to empty structures).  Every attribute except active maps an
empty-string value to the null keyword; active interpolates its value
unconditionally. -/
def modifyUserSetAccum (a : UserObj) : JStr :=
  let name := a.name.getD {}
  let emails := a.emails.getD {}
  let phoneNumbers := a.phoneNumbers.getD {}
  (match a.active with
    | some v => "Enabled='".data ++ v ++ "',".data
    | none => [])
  ++ (match a.password with
    | some v => if v.isEmpty then "Password=null,".data else "Password='".data ++ v ++ "',".data
    | none => [])
  ++ (match name.givenName with
    | some v => if v.isEmpty then "FirstName=null,".data else "FirstName='".data ++ v ++ "',".data
    | none => [])
  ++ (match name.middleName with
    | some v => if v.isEmpty then "MiddleName=null,".data else "MiddleName='".data ++ v ++ "',".data
    | none => [])
  ++ (match name.familyName with
    | some v => if v.isEmpty then "LastName=null,".data else "LastName='".data ++ v ++ "',".data
    | none => [])
  ++ (match phoneNumbers.value with
    | some v => if v.isEmpty then "MobilePhone=null,".data else "MobilePhone='".data ++ v ++ "',".data
    | none => [])
  ++ (match emails.value with
    | some v => if v.isEmpty then "Email=null,".data else "Email='".data ++ v ++ "',".data
    | none => [])

/-- modifyUser's SET clause after `sql.substr(0, sql.length - 1)` removed
the trailing comma (line 308). -/
def modifyUserSetSql (a : UserObj) : JStr :=
  (modifyUserSetAccum a).dropLast

/-- modifyUser's sqlQuery (line 326): note the pattern-match `like`
comparison on UserID. -/
def modifyUserSql (id : JStr) (a : UserObj) : JStr :=
  "update [User] set ".data ++ modifyUserSetSql a
    ++ " where UserID like '".data ++ id ++ "'".data

/-- getGroups result object. -/
structure GroupsRet where
  Resources : List ScimUser
deriving DecidableEq

/-- getGroups (lines 348-382): the mandatory if-else ladder has only
empty branches in the source, so every filter descriptor falls through to
the same result; no SQL statement is built or executed, which the second
component (the list of statements issued) records as empty. -/
def getGroups (g : GetObj) : GroupsRet × List JStr :=
  ({ Resources := [] }, [])

/-- deleteGroup (lines 446-450): always throws. -/
def deleteGroup (id : JStr) : Except JStr Unit :=
  .error "deleteGroup error: deleteGroup is not supported".data

/-- modifyGroup (lines 455-459): always throws. -/
def modifyGroup (id : JStr) (attrObj : UserObj) : Except JStr Unit :=
  .error "modifyGroup error: modifyGroup is not supported".data

/-- The 6-bit value of a base64 alphabet character; characters outside
the alphabet (including the padding sign) carry no bits. -/
def base64Val (c : Char) : Option Nat :=
  if 'A' ≤ c ∧ c ≤ 'Z' then some (c.toNat - 65)
  else if 'a' ≤ c ∧ c ≤ 'z' then some (c.toNat - 97 + 26)
  else if '0' ≤ c ∧ c ≤ '9' then some (c.toNat - 48 + 52)
  else if c = '+' then some 62
  else if c = '/' then some 63
  else none

/-- Base64 bit accumulator: collects 6-bit groups and emits every
completed byte; acc holds the pending bits and nbits their count. -/
def b64Bits : JStr → Nat → Nat → List Nat
  | [], _, _ => []
  | c :: cs, acc, nbits =>
    match base64Val c with
    | none => b64Bits cs acc nbits
    | some v =>
      let acc2 := acc * 64 + v
      let nbits2 := nbits + 6
      if 8 ≤ nbits2 then
        (acc2 / 2 ^ (nbits2 - 8)) :: b64Bits cs (acc2 % 2 ^ (nbits2 - 8)) (nbits2 - 8)
      else
        b64Bits cs acc2 nbits2

/-- Models Buffer.from(s, base64).toString(): base64-decode and read the
bytes back as text (byte-to-character, exact for the ASCII content the
credentials use). -/
def b64Decode (s : JStr) : JStr :=
  (b64Bits s 0 0).map Char.ofNat

/-- getCtxAuth (lines 468-475): returns the username/secret pair decoded
from the authorization header.  A missing or empty header yields the
empty pair; otherwise the header splits on a blank into scheme and token;
for the Basic scheme the token is base64-decoded and split on a colon,
and the split pair is returned only when its username part is truthy —
otherwise (and for every other scheme) the result is no username together
with the raw token.  A Basic header without a token makes Buffer.from
throw a TypeError. -/
def getCtxAuth (authHeader : Option JStr) : Except JStr (Option JStr × Option JStr) :=
  match authHeader with
  | none => .ok (none, none)
  | some a =>
    if a.isEmpty then .ok (none, none)
    else
      let parts := splitOnChar ' ' a
      let authType := parts.get? 0
      let authToken := parts.get? 1
      if authType = some "Basic".data then
        match authToken with
        | none => .error "TypeError: first argument must not be undefined".data
        | some tok =>
          let creds := splitOnChar ':' (b64Decode tok)
          let username := creds.get? 0
          let password := creds.get? 1
          if truthy username then .ok (username, password)
          else .ok (none, some tok)
      else
        .ok (none, authToken)

/-- Whether the connection of one handler invocation was opened
(connection.connect() reached) and whether connection.close() ran before
the promise settled. -/
structure ConnTrace where
  opened : Bool
  closed : Bool
deriving DecidableEq

/-- getUsers result object (itemsPerPage is set by the gateway;
totalResults stays null). -/
structure UsersRet where
  Resources : List ScimUser
  totalResults : Option Nat
deriving DecidableEq

/-- One getUsers invocation (lines 63-160) for given connection and
request outcomes: the filter ladder runs first (a filtering error throws
before any connection exists); then the connect callback either rejects
on a connect error — without calling close — or issues the query, whose
callback closes the connection both on a request error and on success. -/
def runGetUsers (g : GetObj) (connectErr : Option JStr) (requestErr : Option JStr)
    (rows : List SqlRow) : Except JStr UsersRet × ConnTrace :=
  match getUsersBuildSql g with
  | .error e => (.error e, ⟨false, false⟩)
  | .ok sqlQuery =>
    match connectErr with
    | some msg =>
      (.error ("getUsers error: exploreUsers MSSQL client connect error: ".data ++ msg),
        ⟨true, false⟩)
    | none =>
      match requestErr with
      | some msg =>
        (.error ("getUsers error: exploreUsers MSSQL client request: ".data ++ sqlQuery
            ++ " Error: ".data ++ msg), ⟨true, true⟩)
      | none =>
        (.ok { Resources := rows.map rowToScim, totalResults := none }, ⟨true, true⟩)

/-- One createUser invocation (lines 165-221): the connect callback
rejects on a connect error without calling close; the request callback
closes the connection on both its paths and resolves null. -/
def runCreateUser (u : UserObj) (connectErr : Option JStr) (requestErr : Option JStr) :
    Except JStr (Option Unit) × ConnTrace :=
  match connectErr with
  | some msg =>
    (.error ("createUser error: createUser MSSQL client connect error: ".data ++ msg),
      ⟨true, false⟩)
  | none =>
    match requestErr with
    | some msg =>
      (.error ("createUser error: createUser MSSQL client request: ".data ++ createUserSql u
          ++ " error: ".data ++ msg), ⟨true, true⟩)
    | none => (.ok none, ⟨true, true⟩)

/-- One deleteUser invocation (lines 226-265): same connection lifecycle
as createUser, over the delete statement. -/
def runDeleteUser (id : JStr) (connectErr : Option JStr) (requestErr : Option JStr) :
    Except JStr (Option Unit) × ConnTrace :=
  match connectErr with
  | some msg =>
    (.error ("deleteUser error: deleteUser MSSQL client connect error: ".data ++ msg),
      ⟨true, false⟩)
  | none =>
    match requestErr with
    | some msg =>
      (.error ("deleteUser error: deleteUser MSSQL client request: ".data ++ deleteUserSql id
          ++ " error: ".data ++ msg), ⟨true, true⟩)
    | none => (.ok none, ⟨true, true⟩)

/-- One modifyUser invocation (lines 270-343): same connection lifecycle,
over the update statement. -/
def runModifyUser (id : JStr) (a : UserObj) (connectErr : Option JStr)
    (requestErr : Option JStr) : Except JStr (Option Unit) × ConnTrace :=
  match connectErr with
  | some msg =>
    (.error ("modifyUser error: modifyUser MSSQL client connect error: ".data ++ msg),
      ⟨true, false⟩)
  | none =>
    match requestErr with
    | some msg =>
      (.error ("modifyUser error: modifyUser MSSQL client request: ".data
          ++ modifyUserSql id a ++ " error: ".data ++ msg), ⟨true, true⟩)
    | none => (.ok none, ⟨true, true⟩)

/-- An inbound SCIM group object (createGroup, lines 387-401).  Each
field carries the template-literal interpolation of the JavaScript
value; Memberse is the misspelled field the source tests before reading
members. -/
structure GroupObj where
  externalId : Option JStr := none
  displayName : Option JStr := none
  members : Option JStr := none
  Memberse : Option JStr := none
deriving DecidableEq

/-- The insert object of createGroup (lines 397-401). -/
structure GroupInsertRec where
  GroupID : Option JStr
  DisplayName : Option JStr
  Members : Option JStr
deriving DecidableEq

/-- createGroup's insert object (lines 397-401): GroupID interpolates
externalId unconditionally; DisplayName is the quoted literal when
truthy and null otherwise; Members quotes the members field when the
misspelled Memberse field is truthy (and never reaches the
statement). -/
def createGroupInsertRec (g : GroupObj) : GroupInsertRec :=
  { GroupID := some (quote (interp g.externalId))
    DisplayName := (truthyOr g.displayName).map quote
    Members := if truthy g.Memberse then some (quote (interp g.members)) else none }

/-- createGroup's sqlQuery template literal (lines 419-420): a 2-column
insert into the Group table over the insert object. -/
def createGroupSql (g : GroupObj) : JStr :=
  let insert := createGroupInsertRec g
  "insert into [Group] (GroupID, DisplayName)\n                values (".data
    ++ interpNull insert.GroupID ++ ", ".data
    ++ interpNull insert.DisplayName ++ ")".data

/-- One createGroup invocation (lines 387-441): same connection
lifecycle as the user handlers — the connect callback rejects on a
connect error without calling close; the request callback closes the
connection on both its paths — over the group insert statement. -/
def runCreateGroup (g : GroupObj) (connectErr : Option JStr) (requestErr : Option JStr) :
    Except JStr (Option Unit) × ConnTrace :=
  match connectErr with
  | some msg =>
    (.error ("createGroup error: createGroup MSSQL client connect error: ".data ++ msg),
      ⟨true, false⟩)
  | none =>
    match requestErr with
    | some msg =>
      (.error ("createGroup error: createGroup MSSQL client request: ".data
          ++ createGroupSql g ++ " error: ".data ++ msg), ⟨true, true⟩)
    | none => (.ok none, ⟨true, true⟩)

/-- The authentication options sub-object of a tedious connection
configuration. -/
structure AuthOptions where
  userName : Option JStr := none
  password : Option JStr := none
deriving DecidableEq

/-- The authentication sub-object of a tedious connection
configuration. -/
structure AuthCfg where
  type : Option JStr := none
  options : Option AuthOptions := none
deriving DecidableEq

/-- A tedious connection configuration object; server stands for the
fields the plugin never touches. -/
structure ConnectionCfg where
  server : Option JStr := none
  authentication : Option AuthCfg := none
deriving DecidableEq

instance : Inhabited ConnectionCfg := ⟨{}⟩

/-- A heap of configuration objects: mutation of one object is visible
only through its own reference, so the effect of the handlers' in-place
updates on the shared static configuration is observable. -/
abbrev Heap := List ConnectionCfg

/-- Overwrite the object a reference designates. -/
def heapWrite (h : Heap) (r : Nat) (c : ConnectionCfg) : Heap := h.set r c

/-- Modelled from the spec: scimgateway.copyObj (host-framework code not
under src/) "never mutates the shared static configuration object
(always operates on a copy)" — it allocates a fresh object with the same
value and returns its reference. -/
def copyObj (h : Heap) (r : Nat) : Heap × Nat :=
  (h ++ [h.getD r default], h.length)

/-- The pass-through block each handler runs on its connection
configuration copy (lines 111-119, 186-194, 232-240, 310-318): when the
request context carries a truthy authorization header, the missing
authentication sub-objects are created in place, the type defaulted, and
the decoded credentials written into the options of the object at r; a
username is written only when truthy.  Without a header the object is
left as copied. -/
def applyPassThrough (h : Heap) (r : Nat) (authHeader : Option JStr) :
    Heap × Except JStr Unit :=
  if truthy authHeader then
    let cfg := h.getD r default
    let auth := cfg.authentication.getD {}
    let auth := { auth with type := if truthy auth.type then auth.type else some "default".data }
    let auth := { auth with options := some (auth.options.getD {}) }
    match getCtxAuth authHeader with
    | .error e => (heapWrite h r { cfg with authentication := some auth }, .error e)
    | .ok (username, password) =>
      let opts := auth.options.getD {}
      let opts := { opts with password := password }
      let opts := if truthy username then { opts with userName := username } else opts
      (heapWrite h r { cfg with authentication := some { auth with options := some opts } },
        .ok ())
  else (h, .ok ())

/-- The connection-configuration phase of every handler: copy the static
configuration object (reference staticRef), then apply the pass-through
block to the copy; returns the new heap, the copy's reference and whether
decoding threw. -/
def buildConnectionCfg (h : Heap) (staticRef : Nat) (authHeader : Option JStr) :
    Heap × Nat × Except JStr Unit :=
  let copied := copyObj h staticRef
  let applied := applyPassThrough copied.1 copied.2 authHeader
  (applied.1, copied.2, applied.2)

/-- Comma-separated concatenation of the assignment fragments (the form
the specification describes for the SET clause). -/
def intercalateComma : List JStr → JStr
  | [] => []
  | [x] => x
  | x :: y :: t => x ++ ',' :: intercalateComma (y :: t)

/-- The list of column assignments the specification describes for
modifyUser: exactly one entry per attribute present in the patch object,
in source order; every attribute except active renders an empty string as
the null keyword; active renders its value as a quoted literal
unconditionally. -/
def setAssignments (a : UserObj) : List JStr :=
  (a.active.map (fun v => "Enabled='".data ++ v ++ "'".data)).toList
  ++ (a.password.map (fun v =>
      if v.isEmpty then "Password=null".data else "Password='".data ++ v ++ "'".data)).toList
  ++ ((a.name.getD {}).givenName.map (fun v =>
      if v.isEmpty then "FirstName=null".data else "FirstName='".data ++ v ++ "'".data)).toList
  ++ ((a.name.getD {}).middleName.map (fun v =>
      if v.isEmpty then "MiddleName=null".data else "MiddleName='".data ++ v ++ "'".data)).toList
  ++ ((a.name.getD {}).familyName.map (fun v =>
      if v.isEmpty then "LastName=null".data else "LastName='".data ++ v ++ "'".data)).toList
  ++ ((a.phoneNumbers.getD {}).value.map (fun v =>
      if v.isEmpty then "MobilePhone=null".data else "MobilePhone='".data ++ v ++ "'".data)).toList
  ++ ((a.emails.getD {}).value.map (fun v =>
      if v.isEmpty then "Email=null".data else "Email='".data ++ v ++ "'".data)).toList

/-- The update statement as the amended specification sentence describes
it: one assignment per present attribute joined by single commas, no
trailing separator, and a LIKE comparison on UserID. -/
def modifyUserSqlSpec (id : JStr) (a : UserObj) : JStr :=
  "update [User] set ".data ++ intercalateComma (setAssignments a)
    ++ " where UserID like '".data ++ id ++ "'".data

/-- One comma-terminated contribution of an optional attribute to a sql
+= accumulation (proof helper). -/
def optPiece (o : Option JStr) (g : JStr → JStr) : JStr :=
  match o with
  | some v => g v ++ [',']
  | none => []

theorem optPiece_flatten (o : Option JStr) (g : JStr → JStr) :
    optPiece o g = ((o.map g).toList.map (fun s => s ++ [','])).flatten := by
  cases o <;> simp [optPiece]

/-- The sequential sql += chain of modifyUser decomposes into one
comma-terminated contribution per attribute, in source order. -/
theorem accum_pieces (a : UserObj) :
    modifyUserSetAccum a =
      optPiece a.active (fun v => "Enabled='".data ++ v ++ "'".data)
      ++ optPiece a.password (fun v =>
          if v.isEmpty then "Password=null".data else "Password='".data ++ v ++ "'".data)
      ++ optPiece (a.name.getD {}).givenName (fun v =>
          if v.isEmpty then "FirstName=null".data else "FirstName='".data ++ v ++ "'".data)
      ++ optPiece (a.name.getD {}).middleName (fun v =>
          if v.isEmpty then "MiddleName=null".data else "MiddleName='".data ++ v ++ "'".data)
      ++ optPiece (a.name.getD {}).familyName (fun v =>
          if v.isEmpty then "LastName=null".data else "LastName='".data ++ v ++ "'".data)
      ++ optPiece (a.phoneNumbers.getD {}).value (fun v =>
          if v.isEmpty then "MobilePhone=null".data else "MobilePhone='".data ++ v ++ "'".data)
      ++ optPiece (a.emails.getD {}).value (fun v =>
          if v.isEmpty then "Email=null".data else "Email='".data ++ v ++ "'".data) := by
  simp only [modifyUserSetAccum]
  refine congrArg₂ _ (congrArg₂ _ (congrArg₂ _ (congrArg₂ _ (congrArg₂ _ (congrArg₂ _ ?_ ?_) ?_) ?_) ?_) ?_) ?_
  · cases a.active with
    | none => rfl
    | some v => simp [optPiece, List.append_assoc]
  · cases a.password with
    | none => rfl
    | some v => simp only [optPiece]; split_ifs <;> simp [List.append_assoc]
  · cases (a.name.getD {}).givenName with
    | none => rfl
    | some v => simp only [optPiece]; split_ifs <;> simp [List.append_assoc]
  · cases (a.name.getD {}).middleName with
    | none => rfl
    | some v => simp only [optPiece]; split_ifs <;> simp [List.append_assoc]
  · cases (a.name.getD {}).familyName with
    | none => rfl
    | some v => simp only [optPiece]; split_ifs <;> simp [List.append_assoc]
  · cases (a.phoneNumbers.getD {}).value with
    | none => rfl
    | some v => simp only [optPiece]; split_ifs <;> simp [List.append_assoc]
  · cases (a.emails.getD {}).value with
    | none => rfl
    | some v => simp only [optPiece]; split_ifs <;> simp [List.append_assoc]

/-- The sequential sql += chain of modifyUser equals the comma-terminated
join of the per-attribute assignment list. -/
theorem setAccum_eq (a : UserObj) :
    modifyUserSetAccum a = ((setAssignments a).map (fun s => s ++ [','])).flatten := by
  rw [accum_pieces, optPiece_flatten, optPiece_flatten, optPiece_flatten, optPiece_flatten,
    optPiece_flatten, optPiece_flatten, optPiece_flatten]
  simp only [setAssignments, List.map_append, List.flatten_append]

/-- Dropping the last character of a comma-terminated join trims exactly
the trailing separator. -/
theorem dropLast_flatten_comma (l : List JStr) :
    ((l.map (fun s => s ++ [','])).flatten).dropLast = intercalateComma l := by
  induction l with
  | nil => rfl
  | cons x t ih =>
    cases t with
    | nil => simp [intercalateComma]
    | cons y t2 =>
      have hne : ((List.map (fun s => s ++ [',']) (y :: t2)).flatten : JStr) ≠ [] := by
        simp
      rw [List.map_cons, List.flatten_cons]
      rw [List.dropLast_append_of_ne_nil _ hne]
      rw [ih]
      simp [intercalateComma, List.append_assoc]

/-- modifyUser's trimmed SET clause is the comma-separated assignment
list. -/
theorem modifyUserSetSql_eq (a : UserObj) :
    modifyUserSetSql a = intercalateComma (setAssignments a) := by
  rw [modifyUserSetSql, setAccum_eq, dropLast_flatten_comma]

theorem truthyOr_of_truthy (o : Option JStr) (h : truthy o = true) : truthyOr o = o := by
  simp [truthyOr, h]

theorem truthyOr_of_falsy (o : Option JStr) (h : truthy o = false) : truthyOr o = none := by
  simp [truthyOr, h]

theorem truthy_some_of_ne (v : JStr) (h : v ≠ []) : truthy (some v) = true := by
  cases v with
  | nil => exact absurd rfl h
  | cons c cs => rfl

/-- C4 counterexample: the claim says an empty-string value of any of the
seven attributes maps to SQL NULL, but an empty-string active maps to the
quoted empty literal: the patch object with active set to the empty
string yields the assignment Enabled='' and not Enabled=null. -/
theorem C4_counterexample :
    modifyUserSql "jdoe".data { active := some ([] : JStr) } =
      "update [User] set Enabled='' where UserID like 'jdoe'".data
  ∧ modifyUserSql "jdoe".data { active := some ([] : JStr) } ≠
      "update [User] set Enabled=null where UserID like 'jdoe'".data := by
  constructor
  · decide
  · decide

/-- C4 (amended): for every modifyUser patch input, the built UPDATE
statement contains exactly one column assignment per attribute present
among active, password, givenName, middleName, familyName, phone and
email; for each of these except active, an empty-string value maps to SQL
NULL and a non-empty value maps to the quoted literal, while active maps
to the quoted literal of its value even when empty; the trailing
separator is trimmed; and the WHERE clause compares UserID to the id with
a pattern-match (LIKE) comparison, not strict equality. -/
theorem C4_modifyUser_update_statement (id : JStr) (a : UserObj) :
    modifyUserSql id a = modifyUserSqlSpec id a := by
  rw [modifyUserSql, modifyUserSqlSpec, modifyUserSetSql_eq]

/-- C5: deleteGroup and modifyGroup reject with a not-supported error for
every input, and getGroups resolves with an empty Resources list for
every filter descriptor, issuing no database query. -/
theorem C5_groups_not_supported (g : GetObj) (id : JStr) (a : UserObj) :
    deleteGroup id = .error "deleteGroup error: deleteGroup is not supported".data
  ∧ modifyGroup id a = .error "modifyGroup error: modifyGroup is not supported".data
  ∧ (getGroups g).1 = { Resources := [] }
  ∧ (getGroups g).2 = [] :=
  ⟨rfl, rfl, rfl, rfl⟩

/-- C1: getUsers builds SELECT star FROM User for an empty filter
descriptor, SELECT ... WHERE UserID = value for an eq filter on id,
userName or externalId, and throws (building no query) for every other
filter shape. -/
theorem C1_getUsers_filter_dispatch (g : GetObj) :
    (truthy g.operator = false → truthy g.rawFilter = false →
      getUsersBuildSql g = .ok "select * from [User]".data)
  ∧ (g.operator = some "eq".data →
      (g.attrib = some "id".data ∨ g.attrib = some "userName".data ∨
        g.attrib = some "externalId".data) →
      getUsersBuildSql g =
        .ok ("select * from [User] where UserID = '".data ++ interp g.value ++ "'".data))
  ∧ (¬ (truthy g.operator = false ∧ truthy g.rawFilter = false) →
      ¬ (g.operator = some "eq".data ∧
          (g.attrib = some "id".data ∨ g.attrib = some "userName".data ∨
            g.attrib = some "externalId".data)) →
      exceptOk (getUsersBuildSql g) = false) := by
  refine ⟨?_, ?_, ?_⟩
  · intro h1 h2
    simp [getUsersBuildSql, h1, h2]
  · intro h1 h2
    rcases h2 with h | h | h <;>
      simp [getUsersBuildSql, h1, h, truthy, List.isEmpty_cons]
  · intro h1 h2
    simp only [getUsersBuildSql]
    split_ifs with c1 c2 c3 <;> simp_all [exceptOk]

/-- C1 witness: the three branches at concrete filter descriptors. -/
theorem C1_witness :
    getUsersBuildSql {} = .ok "select * from [User]".data
  ∧ getUsersBuildSql ⟨some "id".data, some "eq".data, some "jdoe".data, none⟩ =
      .ok ("select * from [User] where UserID = '".data ++ interp (some "jdoe".data)
        ++ "'".data)
  ∧ exceptOk (getUsersBuildSql
      ⟨some "title".data, some "gt".data, none, some "title gt 1".data⟩) = false := by
  refine ⟨?_, ?_, ?_⟩
  · exact (C1_getUsers_filter_dispatch {}).1 rfl rfl
  · exact (C1_getUsers_filter_dispatch _).2.1 rfl (Or.inl rfl)
  · exact (C1_getUsers_filter_dispatch _).2.2 (by decide) (by decide)

/-- C2 counterexample: the claim says id, userName and externalId always
equal the row's UserID value, but the row whose UserID column holds the
empty string maps to an undefined id (the source keeps a truthy UserID
only), which differs from the row's value. -/
theorem C2_counterexample :
    (rowToScim { UserID := some "".data }).id = none
  ∧ ({ UserID := some "".data : SqlRow }).UserID = some "".data
  ∧ (none : Option JStr) ≠ some "".data := by
  decide

/-- C2 (amended): for every row returned by a getUsers query, the mapped
SCIM user has id, userName and externalId all equal to the row's UserID
value when that value is non-null and non-empty, and all undefined
otherwise; active is true exactly when the Enabled column equals the
string true and false for any other value including null; the name parts
map to givenName/middleName/familyName and are undefined when the source
column is null or empty; MobilePhone and Email map to single-element
arrays with type other when non-null and non-empty and are omitted
otherwise. -/
theorem C2_row_to_scim (r : SqlRow) :
    (truthy r.UserID = true →
      (rowToScim r).id = r.UserID ∧ (rowToScim r).userName = r.UserID ∧
        (rowToScim r).externalId = r.UserID)
  ∧ (truthy r.UserID = false →
      (rowToScim r).id = none ∧ (rowToScim r).userName = none ∧
        (rowToScim r).externalId = none)
  ∧ ((rowToScim r).active = true ↔ r.Enabled = some "true".data)
  ∧ (∀ v, r.FirstName = some v → v ≠ [] → (rowToScim r).name.givenName = some v)
  ∧ (truthy r.FirstName = false → (rowToScim r).name.givenName = none)
  ∧ (∀ v, r.MiddleName = some v → v ≠ [] → (rowToScim r).name.middleName = some v)
  ∧ (truthy r.MiddleName = false → (rowToScim r).name.middleName = none)
  ∧ (∀ v, r.LastName = some v → v ≠ [] → (rowToScim r).name.familyName = some v)
  ∧ (truthy r.LastName = false → (rowToScim r).name.familyName = none)
  ∧ (∀ v, r.MobilePhone = some v → v ≠ [] →
      (rowToScim r).phoneNumbers = some [{ type := "other".data, value := v }])
  ∧ (truthy r.MobilePhone = false → (rowToScim r).phoneNumbers = none)
  ∧ (∀ v, r.Email = some v → v ≠ [] →
      (rowToScim r).emails = some [{ type := "other".data, value := v }])
  ∧ (truthy r.Email = false → (rowToScim r).emails = none) := by
  refine ⟨?_, ?_, ?_, ?_, ?_, ?_, ?_, ?_, ?_, ?_, ?_, ?_, ?_⟩
  · intro h
    rw [rowToScim]
    simp [truthyOr_of_truthy _ h]
  · intro h
    rw [rowToScim]
    simp [truthyOr_of_falsy _ h]
  · rw [rowToScim]
    simp
  · intro v hv hne
    rw [rowToScim]
    simp [hv, truthyOr_of_truthy _ (truthy_some_of_ne v hne)]
  · intro h
    rw [rowToScim]
    simp [truthyOr_of_falsy _ h]
  · intro v hv hne
    rw [rowToScim]
    simp [hv, truthyOr_of_truthy _ (truthy_some_of_ne v hne)]
  · intro h
    rw [rowToScim]
    simp [truthyOr_of_falsy _ h]
  · intro v hv hne
    rw [rowToScim]
    simp [hv, truthyOr_of_truthy _ (truthy_some_of_ne v hne)]
  · intro h
    rw [rowToScim]
    simp [truthyOr_of_falsy _ h]
  · intro v hv hne
    rw [rowToScim]
    simp [hv, truthyOr_of_truthy _ (truthy_some_of_ne v hne)]
  · intro h
    rw [rowToScim]
    simp [truthyOr_of_falsy _ h]
  · intro v hv hne
    rw [rowToScim]
    simp [hv, truthyOr_of_truthy _ (truthy_some_of_ne v hne)]
  · intro h
    rw [rowToScim]
    simp [truthyOr_of_falsy _ h]

/-- C2 witness: the amended mapping at a concrete row with truthy UserID,
Enabled true, a first name and an email, and at the all-null row. -/
theorem C2_witness :
    (rowToScim ⟨some "jdoe".data, some "true".data, none, some "Jane".data, none, none,
      some "j@x.com".data, none⟩).id = some "jdoe".data
  ∧ (rowToScim ⟨some "jdoe".data, some "true".data, none, some "Jane".data, none, none,
      some "j@x.com".data, none⟩).name.givenName = some "Jane".data
  ∧ (rowToScim ⟨some "jdoe".data, some "true".data, none, some "Jane".data, none, none,
      some "j@x.com".data, none⟩).active = true
  ∧ (rowToScim ⟨some "jdoe".data, some "true".data, none, some "Jane".data, none, none,
      some "j@x.com".data, none⟩).emails =
        some [{ type := "other".data, value := "j@x.com".data }]
  ∧ (rowToScim ⟨some "jdoe".data, some "true".data, none, some "Jane".data, none, none,
      some "j@x.com".data, none⟩).phoneNumbers = none
  ∧ (rowToScim {}).id = none := by
  obtain ⟨h1, h2, h3, h4, h5, h6, h7, h8, h9, h10, h11, h12, h13⟩ :=
    C2_row_to_scim ⟨some "jdoe".data, some "true".data, none, some "Jane".data, none, none,
      some "j@x.com".data, none⟩
  refine ⟨(h1 (by decide)).1, h4 "Jane".data rfl (by decide), h3.mpr rfl,
    h12 "j@x.com".data rfl (by decide), h11 (by decide), ?_⟩
  exact ((C2_row_to_scim {}).2.1 (by decide)).1

/-- C3: for every createUser input the built statement is the fixed
8-column INSERT into the User table over UserID, Enabled, Password,
FirstName, MiddleName, LastName, Email and MobilePhone; every absent
optional field (password, name parts, email, phone) maps to SQL NULL;
UserID is taken from the SCIM externalId field; and Enabled is the quoted
literal false whenever active is unset. -/
theorem C3_createUser_insert (u : UserObj) :
    (createUserInsertRec u).UserID = some (quote (interp u.externalId))
  ∧ (u.active = none → (createUserInsertRec u).Enabled = some "'false'".data)
  ∧ (u.password = none → (createUserInsertRec u).Password = none)
  ∧ (u.name = none →
      (createUserInsertRec u).FirstName = none ∧ (createUserInsertRec u).MiddleName = none ∧
        (createUserInsertRec u).LastName = none)
  ∧ (∀ n, u.name = some n → n.givenName = none → (createUserInsertRec u).FirstName = none)
  ∧ (∀ n, u.name = some n → n.middleName = none → (createUserInsertRec u).MiddleName = none)
  ∧ (∀ n, u.name = some n → n.familyName = none → (createUserInsertRec u).LastName = none)
  ∧ (u.emails = none → (createUserInsertRec u).Email = none)
  ∧ (∀ o, u.emails = some o → o.value = none → (createUserInsertRec u).Email = none)
  ∧ (u.phoneNumbers = none → (createUserInsertRec u).MobilePhone = none)
  ∧ (∀ o, u.phoneNumbers = some o → o.value = none →
      (createUserInsertRec u).MobilePhone = none)
  ∧ createUserSql u =
      "insert into [User] (UserID, Enabled, Password, FirstName, MiddleName, LastName, Email, MobilePhone)\n                values (".data
        ++ interpNull (createUserInsertRec u).UserID ++ ", ".data
        ++ interpNull (createUserInsertRec u).Enabled ++ ", ".data
        ++ interpNull (createUserInsertRec u).Password ++ ", ".data
        ++ interpNull (createUserInsertRec u).FirstName ++ ", ".data
        ++ interpNull (createUserInsertRec u).MiddleName ++ ", ".data
        ++ interpNull (createUserInsertRec u).LastName ++ ", ".data
        ++ interpNull (createUserInsertRec u).Email ++ ", ".data
        ++ interpNull (createUserInsertRec u).MobilePhone ++ ")".data := by
  refine ⟨rfl, ?_, ?_, ?_, ?_, ?_, ?_, ?_, ?_, ?_, ?_, rfl⟩
  · intro h
    simp [createUserInsertRec, h, truthy]
  · intro h
    simp [createUserInsertRec, h, truthyOr, truthy]
  · intro h
    refine ⟨?_, ?_, ?_⟩ <;> simp [createUserInsertRec, h, truthyOr, truthy]
  · intro n hn h
    simp [createUserInsertRec, hn, h, truthyOr, truthy]
  · intro n hn h
    simp [createUserInsertRec, hn, h, truthyOr, truthy]
  · intro n hn h
    simp [createUserInsertRec, hn, h, truthyOr, truthy]
  · intro h
    simp [createUserInsertRec, h, truthyOr, truthy]
  · intro o ho h
    simp [createUserInsertRec, ho, h, truthyOr, truthy]
  · intro h
    simp [createUserInsertRec, h, truthyOr, truthy]
  · intro o ho h
    simp [createUserInsertRec, ho, h, truthyOr, truthy]

/-- C3 witness: the insert built from the specification's create scenario
and from the empty input. -/
theorem C3_witness :
    (createUserInsertRec ⟨some "jdoe".data, some "true".data, none,
        some ⟨some "Jane".data, none, none⟩, some ⟨some "j@x.com".data⟩, none⟩).UserID =
      some (quote (interp (some "jdoe".data)))
  ∧ (createUserInsertRec ⟨none, none, none, none, none, none⟩).Enabled = some "'false'".data
  ∧ (createUserInsertRec ⟨none, none, none, none, none, none⟩).Password = none
  ∧ (createUserInsertRec ⟨none, none, none, none, none, none⟩).FirstName = none
  ∧ createUserSql ⟨none, none, none, none, none, none⟩ =
      "insert into [User] (UserID, Enabled, Password, FirstName, MiddleName, LastName, Email, MobilePhone)\n                values (".data
        ++ interpNull (createUserInsertRec ⟨none, none, none, none, none, none⟩).UserID
        ++ ", ".data
        ++ interpNull (createUserInsertRec ⟨none, none, none, none, none, none⟩).Enabled
        ++ ", ".data
        ++ interpNull (createUserInsertRec ⟨none, none, none, none, none, none⟩).Password
        ++ ", ".data
        ++ interpNull (createUserInsertRec ⟨none, none, none, none, none, none⟩).FirstName
        ++ ", ".data
        ++ interpNull (createUserInsertRec ⟨none, none, none, none, none, none⟩).MiddleName
        ++ ", ".data
        ++ interpNull (createUserInsertRec ⟨none, none, none, none, none, none⟩).LastName
        ++ ", ".data
        ++ interpNull (createUserInsertRec ⟨none, none, none, none, none, none⟩).Email
        ++ ", ".data
        ++ interpNull (createUserInsertRec ⟨none, none, none, none, none, none⟩).MobilePhone
        ++ ")".data := by
  refine ⟨(C3_createUser_insert _).1, ?_, ?_, ?_, ?_⟩
  · exact (C3_createUser_insert _).2.1 rfl
  · exact (C3_createUser_insert _).2.2.1 rfl
  · exact ((C3_createUser_insert _).2.2.2.1 rfl).1
  · exact (C3_createUser_insert _).2.2.2.2.2.2.2.2.2.2.2

/-- C6: a createUser input with no externalId raises no validation error
and the built INSERT statement carries the literal text undefined as the
quoted UserID value. -/
theorem C6_missing_externalId (u : UserObj) (h : u.externalId = none) :
    (createUserInsertRec u).UserID = some "'undefined'".data
  ∧ ∃ rest, createUserSql u =
      "insert into [User] (UserID, Enabled, Password, FirstName, MiddleName, LastName, Email, MobilePhone)\n                values ('undefined', ".data
        ++ rest := by
  constructor
  · rw [createUserInsertRec]
    simp [h, interp, quote]
  · refine ⟨interpNull (createUserInsertRec u).Enabled ++ ", ".data
      ++ interpNull (createUserInsertRec u).Password ++ ", ".data
      ++ interpNull (createUserInsertRec u).FirstName ++ ", ".data
      ++ interpNull (createUserInsertRec u).MiddleName ++ ", ".data
      ++ interpNull (createUserInsertRec u).LastName ++ ", ".data
      ++ interpNull (createUserInsertRec u).Email ++ ", ".data
      ++ interpNull (createUserInsertRec u).MobilePhone ++ ")".data, ?_⟩
    rw [createUserSql]
    have hu : interpNull (createUserInsertRec u).UserID = "'undefined'".data := by
      rw [createUserInsertRec]
      simp [h, interp, quote, interpNull]
    rw [hu]
    simp [List.append_assoc]

/-- C6 witness: the empty create input. -/
theorem C6_witness :
    (createUserInsertRec {}).UserID = some "'undefined'".data
  ∧ ∃ rest, createUserSql {} =
      "insert into [User] (UserID, Enabled, Password, FirstName, MiddleName, LastName, Email, MobilePhone)\n                values ('undefined', ".data
        ++ rest :=
  C6_missing_externalId {} rfl

/-- C8 counterexample: the claim says the connection is closed on every
exit path including a connection-establishment error, but the getUsers
run whose connect callback reports an error rejects without any close
call: the handler completes (rejects) with the connection opened and not
closed. -/
theorem C8_counterexample :
    (runGetUsers {} (some "ECONNREFUSED".data) none []).2.opened = true
  ∧ (runGetUsers {} (some "ECONNREFUSED".data) none []).2.closed = false
  ∧ exceptOk (runGetUsers {} (some "ECONNREFUSED".data) none []).1 = false := by
  decide

/-- C8 (amended): for every operation handler invocation that opens a
database connection — getUsers, createUser, deleteUser, modifyUser and
createGroup; the remaining handlers (getGroups, deleteGroup,
modifyGroup) never open one — the connection opened for a call is closed
before the handler completes on the successful path and on the
query-execution-error path; on a connection-establishment error the
handler rejects without a close call; and getUsers opens a connection
exactly when its filter ladder built a query. -/
theorem C8_connection_close (g : GetObj) (id : JStr) (u : UserObj) (go : GroupObj)
    (cErr rErr : Option JStr) (rows : List SqlRow) :
    ((runGetUsers g cErr rErr rows).2.closed =
      (exceptOk (getUsersBuildSql g) && cErr.isNone))
  ∧ ((runGetUsers g cErr rErr rows).2.opened = exceptOk (getUsersBuildSql g))
  ∧ ((runCreateUser u cErr rErr).2.closed = cErr.isNone)
  ∧ ((runDeleteUser id cErr rErr).2.closed = cErr.isNone)
  ∧ ((runModifyUser id u cErr rErr).2.closed = cErr.isNone)
  ∧ ((runCreateGroup go cErr rErr).2.closed = cErr.isNone)
  ∧ ((runCreateUser u cErr rErr).2.opened = true)
  ∧ ((runDeleteUser id cErr rErr).2.opened = true)
  ∧ ((runModifyUser id u cErr rErr).2.opened = true)
  ∧ ((runCreateGroup go cErr rErr).2.opened = true) := by
  rcases hq : getUsersBuildSql g with e | s <;> cases cErr <;> cases rErr <;>
    simp [runGetUsers, runCreateUser, runDeleteUser, runModifyUser, runCreateGroup, hq,
      exceptOk]

/-- C7 counterexample: for the Basic header whose base64 token decodes to
a colon followed by the word pass, the claim predicts the split decoded
password as the override password, but the decoder returns the raw
still-encoded token instead. -/
theorem C7_counterexample :
    b64Decode "OnBhc3M=".data = ":pass".data
  ∧ (splitOnChar ':' (b64Decode "OnBhc3M=".data))[1]? = some "pass".data
  ∧ getCtxAuth (some "Basic OnBhc3M=".data) = .ok (none, some "OnBhc3M=".data)
  ∧ ("OnBhc3M=".data : JStr) ≠ "pass".data :=
  ⟨rfl, rfl, rfl, by decide⟩

/-- C7 (amended): for every non-empty authorization header, the decoder
splits it on a blank into scheme and token; for the Basic scheme it
base64-decodes the token and splits the result on a colon, and the
resulting username/password pair overrides the credentials only when the
username part is truthy — when that part is empty, the result is no
username together with the raw, still-encoded token as password; for any
other scheme the whole token is the password with no username. -/
theorem C7_getCtxAuth (a : JStr) (hne : a ≠ []) :
    ((splitOnChar ' ' a)[0]? ≠ some "Basic".data →
      getCtxAuth (some a) = .ok (none, (splitOnChar ' ' a)[1]?))
  ∧ (∀ tok, (splitOnChar ' ' a)[0]? = some "Basic".data →
      (splitOnChar ' ' a)[1]? = some tok →
      (truthy (splitOnChar ':' (b64Decode tok))[0]? = true →
        getCtxAuth (some a) =
          .ok ((splitOnChar ':' (b64Decode tok))[0]?,
            (splitOnChar ':' (b64Decode tok))[1]?))
      ∧ (truthy (splitOnChar ':' (b64Decode tok))[0]? = false →
        getCtxAuth (some a) = .ok (none, some tok))) := by
  have hie : a.isEmpty = false := by
    cases a with
    | nil => exact absurd rfl hne
    | cons c cs => rfl
  constructor
  · intro h
    simp [getCtxAuth, hie, h]
  · intro tok h0 h1
    constructor
    · intro htr
      simp [getCtxAuth, hie, h0, h1, htr]
    · intro hfa
      simp [getCtxAuth, hie, h0, h1, hfa]

/-- C7 witness: a Basic header with full credentials, and a Bearer
header. -/
theorem C7_witness :
    getCtxAuth (some "Basic dXNlcjpwdw==".data) = .ok (some "user".data, some "pw".data)
  ∧ getCtxAuth (some "Bearer tok123".data) = .ok (none, some "tok123".data) := by
  constructor
  · have h := ((C7_getCtxAuth "Basic dXNlcjpwdw==".data (by decide)).2
      "dXNlcjpwdw==".data (by decide) (by decide)).1 (by decide)
    exact h.trans rfl
  · have h := (C7_getCtxAuth "Bearer tok123".data (by decide)).1 (by decide)
    exact h.trans rfl

/-- C10: a Basic authorization header whose base64-decoded token has an
empty username part (nothing before the first colon) makes the decoder
return no username together with the raw, still-encoded base64 token as
the password. -/
theorem C10_basic_empty_username (tok : JStr)
    (hs : splitOnChar ' ' ("Basic ".data ++ tok) = ["Basic".data, tok])
    (hu : truthy (splitOnChar ':' (b64Decode tok))[0]? = false) :
    getCtxAuth (some ("Basic ".data ++ tok)) = .ok (none, some tok) := by
  have hie : ("Basic ".data ++ tok).isEmpty = false := rfl
  have hs2 : splitOnChar ' ' ('B' :: 'a' :: 's' :: 'i' :: 'c' :: ' ' :: tok) =
      ["Basic".data, tok] := hs
  simp [getCtxAuth, hie, hs2, hu]

/-- C10 witness: the token encoding a colon-pass credential with empty
username. -/
theorem C10_witness :
    getCtxAuth (some ("Basic ".data ++ "OnBhc3M=".data)) =
      .ok (none, some "OnBhc3M=".data) :=
  C10_basic_empty_username "OnBhc3M=".data (by decide) (by decide)

theorem applyPassThrough_frame (hp : Heap) (r j : Nat) (auth : Option JStr)
    (hne : r ≠ j) : ((applyPassThrough hp r auth).1)[j]? = hp[j]? := by
  rw [applyPassThrough]
  cases htr : truthy auth
  · simp
  · rcases hca : getCtxAuth auth with e | ⟨un, pw⟩ <;>
      simp only [htr, hca, heapWrite, if_true] <;>
      rw [List.getElem?_set_ne hne]

/-- C9: the connection-configuration phase of a handler never mutates the
shared static configuration object: after copying and applying the
pass-through overrides, the object the static reference designates is
unchanged, and the overrides were applied to a freshly allocated
object. -/
theorem C9_static_config_untouched (h : Heap) (staticRef : Nat) (auth : Option JStr)
    (hlt : staticRef < h.length) :
    ((buildConnectionCfg h staticRef auth).1)[staticRef]? = h[staticRef]?
  ∧ (buildConnectionCfg h staticRef auth).2.1 = h.length := by
  constructor
  · have hb : (buildConnectionCfg h staticRef auth).1 =
        (applyPassThrough (h ++ [h.getD staticRef default]) h.length auth).1 := rfl
    rw [hb, applyPassThrough_frame _ _ _ _ (Nat.ne_of_gt hlt)]
    simp [List.getElem?_append, hlt]
  · rfl

/-- C9 witness: a one-object heap with pass-through credentials. -/
theorem C9_witness :
    ((buildConnectionCfg [{ server := some "srv".data }] 0 (some "Bearer pw123".data)).1)[0]?
      = ([{ server := some "srv".data }] : Heap)[0]?
  ∧ (buildConnectionCfg [{ server := some "srv".data }] 0 (some "Bearer pw123".data)).2.1
      = ([{ server := some "srv".data }] : Heap).length :=
  C9_static_config_untouched [{ server := some "srv".data }] 0 (some "Bearer pw123".data)
    (by decide)
